import Mathlib

/-!
Shallow embedding of the face-capture scanner repository.

Covered source:
- the pose classifier and the heuristic face-detection pipeline of the
  FaceDetectionService variants (src/src/app/services/enrollment.service.ts),
- the capture controller of the server-authoritative camera-capture page
  (src/unnamed/part_004, second component in the file).

Modelling conventions: JS numbers are modelled as exact rationals (Rat),
Date.now timestamps as integers, the per-pose boolean record as a structure
of five booleans, and the optional per-pose timestamp map as a function into
Option Int (the source reads it as lastCaptureTime[bucket] || 0).
Math.sqrt, which has no exact rational counterpart, is passed in as an
abstract function; the theorems that touch it only assume it is nonnegative.
-/

/-- The five discrete capture buckets. The source uses the string literals
FRONT, LEFT, RIGHT, UP and DOWN; the detection result field poseBucket is
string-or-null and is modelled as Option PoseBucket. -/
inductive PoseBucket
  | FRONT
  | LEFT
  | RIGHT
  | UP
  | DOWN
deriving DecidableEq, Repr

/-- classifyPose of the heuristic FaceDetectionService: first matching range
by precedence FRONT, LEFT, RIGHT, UP, DOWN, otherwise null. -/
def classifyPose (yaw pitch : Rat) : Option PoseBucket :=
  if -8 ≤ yaw ∧ yaw ≤ 8 ∧ -6 ≤ pitch ∧ pitch ≤ 6 then some PoseBucket.FRONT
  else if -35 ≤ yaw ∧ yaw ≤ -12 ∧ -15 ≤ pitch ∧ pitch ≤ 15 then some PoseBucket.LEFT
  else if 12 ≤ yaw ∧ yaw ≤ 35 ∧ -15 ≤ pitch ∧ pitch ≤ 15 then some PoseBucket.RIGHT
  else if -30 ≤ pitch ∧ pitch ≤ -8 ∧ -20 ≤ yaw ∧ yaw ≤ 20 then some PoseBucket.UP
  else if 8 ≤ pitch ∧ pitch ≤ 25 ∧ -20 ≤ yaw ∧ yaw ≤ 20 then some PoseBucket.DOWN
  else none

/-- classifyPose of the ML Kit FaceDetectionService variant (same precedence,
slightly different FRONT, UP and DOWN ranges). -/
def classifyPoseMLKit (yaw pitch : Rat) : Option PoseBucket :=
  if -10 ≤ yaw ∧ yaw ≤ 10 ∧ -8 ≤ pitch ∧ pitch ≤ 8 then some PoseBucket.FRONT
  else if -35 ≤ yaw ∧ yaw ≤ -12 ∧ -15 ≤ pitch ∧ pitch ≤ 15 then some PoseBucket.LEFT
  else if 12 ≤ yaw ∧ yaw ≤ 35 ∧ -15 ≤ pitch ∧ pitch ≤ 15 then some PoseBucket.RIGHT
  else if pitch ≤ -10 ∧ -30 ≤ pitch ∧ -20 ≤ yaw ∧ yaw ≤ 20 then some PoseBucket.UP
  else if 10 ≤ pitch ∧ pitch ≤ 30 ∧ -20 ≤ yaw ∧ yaw ≤ 20 then some PoseBucket.DOWN
  else none

/-- The FRONT range condition, exactly the first guard of classifyPose. -/
def inFRONTRange (yaw pitch : Rat) : Prop :=
  -8 ≤ yaw ∧ yaw ≤ 8 ∧ -6 ≤ pitch ∧ pitch ≤ 6

/-- The LEFT range condition, exactly the second guard of classifyPose. -/
def inLEFTRange (yaw pitch : Rat) : Prop :=
  -35 ≤ yaw ∧ yaw ≤ -12 ∧ -15 ≤ pitch ∧ pitch ≤ 15

/-- The RIGHT range condition, exactly the third guard of classifyPose. -/
def inRIGHTRange (yaw pitch : Rat) : Prop :=
  12 ≤ yaw ∧ yaw ≤ 35 ∧ -15 ≤ pitch ∧ pitch ≤ 15

/-- The UP range condition, exactly the fourth guard of classifyPose. -/
def inUPRange (yaw pitch : Rat) : Prop :=
  -30 ≤ pitch ∧ pitch ≤ -8 ∧ -20 ≤ yaw ∧ yaw ≤ 20

/-- The DOWN range condition, exactly the fifth guard of classifyPose. -/
def inDOWNRange (yaw pitch : Rat) : Prop :=
  8 ≤ pitch ∧ pitch ≤ 25 ∧ -20 ≤ yaw ∧ yaw ≤ 20

/-- The detection result record shared by the detection pipeline and the
capture controller (interface FaceDetectionResult in the source; poseBucket
is string-or-null there and Option PoseBucket here). -/
structure FaceDetectionResult where
  faceDetected : Bool
  faceCount : Nat
  faceConfidence : Rat
  faceInFrame : Bool
  poseBucket : Option PoseBucket
  yaw : Rat
  pitch : Rat
  quality : Rat
deriving DecidableEq, Repr

/-- The per-pose progress record (interface PoseProgress: five booleans). -/
structure PoseProgress where
  FRONT : Bool
  LEFT : Bool
  RIGHT : Bool
  UP : Bool
  DOWN : Bool
deriving DecidableEq, Repr

/-- Lookup poseProgress[bucket]. -/
def PoseProgress.get (p : PoseProgress) : PoseBucket → Bool
  | PoseBucket.FRONT => p.FRONT
  | PoseBucket.LEFT => p.LEFT
  | PoseBucket.RIGHT => p.RIGHT
  | PoseBucket.UP => p.UP
  | PoseBucket.DOWN => p.DOWN

/-- Assignment poseProgress[bucket] = v. -/
def PoseProgress.set (p : PoseProgress) : PoseBucket → Bool → PoseProgress
  | PoseBucket.FRONT, v => { p with FRONT := v }
  | PoseBucket.LEFT, v => { p with LEFT := v }
  | PoseBucket.RIGHT, v => { p with RIGHT := v }
  | PoseBucket.UP, v => { p with UP := v }
  | PoseBucket.DOWN, v => { p with DOWN := v }

/-- The all-false progress record the controller starts with and resets to. -/
def PoseProgress.initial : PoseProgress :=
  { FRONT := false, LEFT := false, RIGHT := false, UP := false, DOWN := false }

/-- isCaptureComplete of the capture page: Object.values(poseProgress)
joined with every(Boolean). -/
def isCaptureComplete (p : PoseProgress) : Bool :=
  p.FRONT && p.LEFT && p.RIGHT && p.UP && p.DOWN

/-- MIN_FACE_CONFIDENCE of the capture page (0.9). -/
def MIN_FACE_CONFIDENCE : Rat := 0.9

/-- MIN_QUALITY_THRESHOLD of the capture page (0.85). -/
def MIN_QUALITY_THRESHOLD : Rat := 0.85

/-- CAPTURE_COOLDOWN of the capture page: 2000 ms between captures per pose. -/
def CAPTURE_COOLDOWN : Int := 2000

/-- The mutable fields of the server-authoritative CameraCapturePage that the
capture logic touches: the active flag, the session id mirror, the per-pose
progress record, the per-pose last-capture timestamp map (absent entries read
as 0 through the source idiom lastCaptureTime[bucket] || 0), the latest
detection, and the camera / analysis-interval resources. -/
structure CaptureState where
  active : Bool
  sessionId : String
  poseProgress : PoseProgress
  lastCaptureTime : PoseBucket → Option Int
  currentDetection : FaceDetectionResult
  cameraOn : Bool
  loopRunning : Bool

/-- shouldCapturePose of the server-authoritative capture page, with the
seven checks in source order: exactly one face, non-null bucket, detected
with confidence at least 0.9, fully in frame, quality at least 0.85, bucket
not already captured, and the 2000 ms per-bucket cooldown elapsed. -/
def shouldCapturePose (d : FaceDetectionResult) (progress : PoseProgress)
    (lastCaptureTime : PoseBucket → Option Int) (now : Int) : Bool :=
  if d.faceCount ≠ 1 then false
  else
    match d.poseBucket with
    | none => false
    | some bucket =>
      if d.faceDetected = false ∨ d.faceConfidence < MIN_FACE_CONFIDENCE then false
      else if d.faceInFrame = false then false
      else if d.quality < MIN_QUALITY_THRESHOLD then false
      else if progress.get bucket = true then false
      else if now - ((lastCaptureTime bucket).getD 0) < CAPTURE_COOLDOWN then false
      else true

/-- Result of one analysis tick: the updated controller state and the bucket
for which capturePoseFrame initiated an uploadFrame call, if any. -/
structure TickOutcome where
  state : CaptureState
  uploadFired : Option PoseBucket

/-- The body of the scheduled analysis tick (the setTimeout continuation in
startAnalysisLoop): bail out unless still active, store the detection, and
when shouldCapturePose holds run the synchronous prefix of capturePoseFrame,
which records lastCaptureTime[bucket] = now before the upload round trip and
initiates the upload. The two Date.now() reads of one tick are modelled as
the same instant now. -/
def analysisTick (s : CaptureState) (d : FaceDetectionResult) (now : Int) :
    TickOutcome :=
  if s.active = false then { state := s, uploadFired := none }
  else if shouldCapturePose d s.poseProgress s.lastCaptureTime now = true then
    match d.poseBucket with
    | some bucket =>
      { state :=
          { s with
            currentDetection := d
            lastCaptureTime :=
              fun b => if b = bucket then some now else s.lastCaptureTime b }
        uploadFired := some bucket }
    | none => { state := { s with currentDetection := d }, uploadFired := none }
  else { state := { s with currentDetection := d }, uploadFired := none }

/-- The uploadFrame response body (interface FrameUploadResult). -/
structure FrameUploadResult where
  success : Bool
  accepted : Bool
  progress : Rat
  completed : Bool
  quality : Option Rat
  message : String
deriving DecidableEq, Repr

/-- Result of processing one uploadFrame response: the updated state, whether
onEnrollmentComplete ran, whether the backend completion call was issued,
the toast message surfaced for a rejection or error, and whether the error
path (catch) was taken. -/
structure UploadOutcome where
  state : CaptureState
  completedTransition : Bool
  notifiedServerComplete : Bool
  surfacedMessage : Option String
  uploadErrorSurfaced : Bool

/-- The continuation of capturePoseFrame after await uploadFrame, including
onEnrollmentComplete: a non-success response throws into the catch branch
(message surfaced, no state change); accepted = false surfaces the server
message verbatim and leaves progress untouched; accepted = true marks the
bucket, and completed = true additionally deactivates the controller, stops
camera and tick loop, and notifies the backend when a session id is present.
The source has no active-state guard on this continuation. -/
def onUploadResponse (s : CaptureState) (bucket : PoseBucket)
    (r : FrameUploadResult) : UploadOutcome :=
  if r.success = false then
    { state := s, completedTransition := false, notifiedServerComplete := false,
      surfacedMessage := some (if r.message = "" then "Upload failed" else r.message),
      uploadErrorSurfaced := true }
  else if r.accepted = false then
    { state := s, completedTransition := false, notifiedServerComplete := false,
      surfacedMessage := some r.message, uploadErrorSurfaced := false }
  else if r.completed = true then
    { state :=
        { s with
          poseProgress := s.poseProgress.set bucket true
          active := false
          cameraOn := false
          loopRunning := false }
      completedTransition := true
      notifiedServerComplete := decide (s.sessionId ≠ "")
      surfacedMessage := none
      uploadErrorSurfaced := false }
  else
    { state := { s with poseProgress := s.poseProgress.set bucket true },
      completedTransition := false, notifiedServerComplete := false,
      surfacedMessage := none, uploadErrorSurfaced := false }

/-- Result of resetCapture: the reset state and whether the best-effort
backend cancellation call was issued. -/
structure ResetOutcome where
  state : CaptureState
  cancelRequested : Bool

/-- resetCapture of the server-authoritative capture page: deactivate, stop
camera and analysis loop, cancel the backend session when one exists, clear
the pose progress and the cooldown ledger, and drop the session id. -/
def resetCapture (s : CaptureState) : ResetOutcome :=
  { state := { active := false, cameraOn := false, loopRunning := false,
               sessionId := "", poseProgress := PoseProgress.initial,
               lastCaptureTime := fun _ => none,
               currentDetection := s.currentDetection },
    cancelRequested := decide (s.sessionId ≠ "") }

/-- The initial currentDetection value of the capture page. -/
def initialDetection : FaceDetectionResult :=
  { faceDetected := false, faceCount := 0, faceConfidence := 0,
    faceInFrame := false, poseBucket := none, yaw := 0, pitch := 0, quality := 0 }

/-- A detection passing every gate for the given bucket (used as a concrete
test input by the witnesses). -/
def qualifyingDetection (b : PoseBucket) : FaceDetectionResult :=
  { faceDetected := true, faceCount := 1, faceConfidence := 0.95,
    faceInFrame := true, poseBucket := some b, yaw := 0, pitch := 0,
    quality := 0.9 }

/-- A concrete active controller state with an open session and no progress. -/
def activeState : CaptureState :=
  { active := true, sessionId := "sess-1", poseProgress := PoseProgress.initial,
    lastCaptureTime := fun _ => none, currentDetection := initialDetection,
    cameraOn := true, loopRunning := true }

/-- A concrete active state in which only the FRONT bucket is marked. -/
def partialProgressState : CaptureState :=
  { activeState with poseProgress := { PoseProgress.initial with FRONT := true } }

/-- A concrete active state in which every bucket except DOWN is marked. -/
def fourProgressState : CaptureState :=
  { activeState with poseProgress :=
      { FRONT := true, LEFT := true, RIGHT := true, UP := true, DOWN := false } }

/-- A concrete accepting response that carries the completed flag. -/
def acceptCompleteResult : FrameUploadResult :=
  { success := true, accepted := true, progress := 100, completed := true,
    quality := none, message := "Enrollment completed" }

/-- A concrete successful but rejecting response. -/
def rejectResult : FrameUploadResult :=
  { success := true, accepted := false, progress := 20, completed := false,
    quality := none, message := "Pose not matched" }

/-- A video frame as canvas image data: dimensions plus the pixel function
returning the red, green and blue channel values (the alpha channel is never
read by the pipeline). -/
structure Frame where
  width : Nat
  height : Nat
  pixel : Nat → Nat → Rat × Rat × Rat

/-- Math.round as applied to the nonnegative geometry quantities of the
pipeline: floor of q + 1/2. -/
def jsRound (q : Rat) : Nat :=
  (⌊q + 1/2⌋).toNat

/-- The index list of a JS loop for (v = start; v < stop; v += step) with a
positive step: start, start + step, and so on, below stop. -/
def strideRange (start stop step : Nat) : List Nat :=
  (List.range ((stop - start + step - 1) / step)).map (fun k => start + step * k)

/-- All pixel coordinates (y, x) of a nested row/column loop. -/
def gridPoints (ys xs : List Nat) : List (Nat × Nat) :=
  ys.flatMap (fun y => xs.map (fun x => (y, x)))

/-- Average brightness (r + g + b) / 3 of the pixel at (y, x), as computed
from the image data in each region evaluator. -/
def brightnessAt (frame : Frame) (p : Nat × Nat) : Rat :=
  ((frame.pixel p.1 p.2).1 + (frame.pixel p.1 p.2).2.1
    + (frame.pixel p.1 p.2).2.2) / 3

/-- evaluateEyeRegion: fraction of dark pixels (brightness below 100) in the
band at 25 to 45 percent of window height and 20 to 80 percent of width,
scored 1 above a 0.3 dark ratio, else proportionally. -/
def evaluateEyeRegion (frame : Frame) (x y w h : Nat) : Rat :=
  let eyeY := y + jsRound ((h : Rat) * 0.25)
  let eyeHeight := jsRound ((h : Rat) * 0.2)
  let pts := gridPoints (strideRange eyeY (eyeY + eyeHeight) 1)
    (strideRange (x + jsRound ((w : Rat) * 0.2)) (x + jsRound ((w : Rat) * 0.8)) 1)
  let darkRatio : Rat :=
    (pts.countP (fun p => decide (brightnessAt frame p < 100)) : Rat)
      / (pts.length : Rat)
  if darkRatio > 0.3 then 1 else darkRatio / 0.3

/-- evaluateNoseRegion: average brightness of the centered sub-rectangle (40
to 60 percent width, 40 to 70 percent height), scored 1 inside (80, 200),
else 0.5. An empty sample region yields the else branch in both the source
(NaN comparisons are false) and this embedding (0 is not above 80). -/
def evaluateNoseRegion (frame : Frame) (x y w h : Nat) : Rat :=
  let noseX := x + jsRound ((w : Rat) * 0.4)
  let noseY := y + jsRound ((h : Rat) * 0.4)
  let noseW := jsRound ((w : Rat) * 0.2)
  let noseH := jsRound ((h : Rat) * 0.3)
  let pts := gridPoints (strideRange noseY (noseY + noseH) 1)
    (strideRange noseX (noseX + noseW) 1)
  let avgBrightness := (pts.map (brightnessAt frame)).sum / (pts.length : Rat)
  if avgBrightness > 80 ∧ avgBrightness < 200 then 1 else 0.5

/-- evaluateMouthRegion: fraction of dark pixels (brightness below 120) in
the band at 65 to 80 percent height and 30 to 70 percent width, scored 1
above a 0.2 dark ratio, else proportionally. -/
def evaluateMouthRegion (frame : Frame) (x y w h : Nat) : Rat :=
  let mouthY := y + jsRound ((h : Rat) * 0.65)
  let mouthHeight := jsRound ((h : Rat) * 0.15)
  let pts := gridPoints (strideRange mouthY (mouthY + mouthHeight) 1)
    (strideRange (x + jsRound ((w : Rat) * 0.3)) (x + jsRound ((w : Rat) * 0.7)) 1)
  let darkRatio : Rat :=
    (pts.countP (fun p => decide (brightnessAt frame p < 120)) : Rat)
      / (pts.length : Rat)
  if darkRatio > 0.2 then 1 else darkRatio / 0.2

/-- isSkinColor: the three disjunctive channel heuristics of the source. -/
def isSkinColor (r g b : Rat) : Bool :=
  decide ((r > 95 ∧ g > 40 ∧ b > 20 ∧ r > g ∧ r > b ∧ |r - g| > 15) ∨
    (r > 80 ∧ g > 50 ∧ b > 30 ∧ r ≥ g ∧ g ≥ b) ∨
    (r > 50 ∧ g > 30 ∧ b > 15 ∧ r ≥ g ∧ g ≥ b ∧ r - b > 10))

/-- evaluateSkinTone: fraction of stride-3 sampled pixels matching
isSkinColor, normalized against a 0.4 occupancy target. -/
def evaluateSkinTone (frame : Frame) (x y w h : Nat) : Rat :=
  let pts := gridPoints (strideRange y (y + h) 3) (strideRange x (x + w) 3)
  let skinRatio : Rat :=
    (pts.countP (fun p => isSkinColor (frame.pixel p.1 p.2).1
      (frame.pixel p.1 p.2).2.1 (frame.pixel p.1 p.2).2.2) : Rat)
      / (pts.length : Rat)
  if skinRatio > 0.4 then 1 else skinRatio / 0.4

/-- evaluateFaceRegion: the weighted sum of the four region evaluators,
capped at 1. -/
def evaluateFaceRegion (frame : Frame) (x y w h : Nat) : Rat :=
  min 1 (evaluateEyeRegion frame x y w h * 0.4
    + evaluateNoseRegion frame x y w h * 0.2
    + evaluateMouthRegion frame x y w h * 0.2
    + evaluateSkinTone frame x y w h * 0.2)

/-- A face bounding box (x, y, width, height). -/
structure FaceBox where
  x : Nat
  y : Nat
  width : Nat
  height : Nat
deriving DecidableEq, Repr

/-- A scan candidate: a box plus its raw evaluateFaceRegion score. The
multi-scale window scan detectFacesAtScale pushes a candidate exactly when
its evaluateFaceRegion score exceeds 0.6; the pipeline theorems take the
candidate list as input under that hypothesis. -/
structure FaceCandidate extends FaceBox where
  score : Rat
deriving DecidableEq, Repr

/-- A candidate together with its computed confidence (the spread
construction faces.map(face to face plus confidence) of detectFaces). -/
structure ScoredFace extends FaceCandidate where
  confidence : Rat
deriving DecidableEq, Repr

/-- calculateOverlap: intersection over union of two boxes, zero when the
boxes do not properly intersect. -/
def calculateOverlap (a b : FaceCandidate) : Rat :=
  let x1 : Rat := max (a.x : Rat) (b.x : Rat)
  let y1 : Rat := max (a.y : Rat) (b.y : Rat)
  let x2 : Rat := min ((a.x : Rat) + a.width) ((b.x : Rat) + b.width)
  let y2 : Rat := min ((a.y : Rat) + a.height) ((b.y : Rat) + b.height)
  if x2 ≤ x1 ∨ y2 ≤ y1 then 0
  else
    (x2 - x1) * (y2 - y1)
      / ((a.width : Rat) * a.height + (b.width : Rat) * b.height
        - (x2 - x1) * (y2 - y1))

/-- The greedy keep loop of nonMaximumSuppression: a candidate is kept only
when its overlap with every already kept candidate is at most 0.3. -/
def nmsLoop (kept : List FaceCandidate) :
    List FaceCandidate → List FaceCandidate
  | [] => kept
  | f :: rest =>
    if kept.all (fun k => decide (calculateOverlap f k ≤ 0.3)) then
      nmsLoop (kept ++ [f]) rest
    else nmsLoop kept rest

/-- nonMaximumSuppression: sort by raw score descending (the JS sort is
stable, and insertionSort is its stable counterpart) and keep greedily. -/
def nonMaximumSuppression (faces : List FaceCandidate) : List FaceCandidate :=
  nmsLoop [] (List.insertionSort (fun a b => b.score ≤ a.score) faces)

/-- The size score, textually duplicated in the source as sizeScore inside
calculateFaceConfidence and sizeQuality inside calculateQuality: peak 1 at
an area ratio of 0.15, linear falloff, zero outside [0.08, 0.4]. -/
def sizeScoreOf (frame : Frame) (b : FaceBox) : Rat :=
  let sizeRatio : Rat :=
    ((b.width : Rat) * b.height) / ((frame.width : Rat) * frame.height)
  if 0.08 ≤ sizeRatio ∧ sizeRatio ≤ 0.4 then 1 - |sizeRatio - 0.15| / 0.15
  else 0

/-- The position score, textually duplicated in the source inside
calculateFaceConfidence and calculateQuality: 1 minus the mean fractional
center offset, capped at 1. -/
def positionScoreOf (frame : Frame) (b : FaceBox) : Rat :=
  let offsetX := |(b.x : Rat) + (b.width : Rat) / 2 - (frame.width : Rat) / 2|
    / ((frame.width : Rat) / 2)
  let offsetY := |(b.y : Rat) + (b.height : Rat) / 2 - (frame.height : Rat) / 2|
    / ((frame.height : Rat) / 2)
  1 - min 1 ((offsetX + offsetY) / 2)

/-- calculateFaceConfidence: 0.4 raw score + 0.3 size score + 0.3 position
score. -/
def calculateFaceConfidence (frame : Frame) (f : FaceCandidate) : Rat :=
  f.score * 0.4 + sizeScoreOf frame f.toFaceBox * 0.3
    + positionScoreOf frame f.toFaceBox * 0.3

/-- The record detectFaces returns: the surviving faces sorted by confidence
descending, plus the top confidence (0 when no face survives). -/
structure DetectFacesOut where
  faces : List ScoredFace
  maxConfidence : Rat

/-- detectFaces after the per-scale scan: non-maximum suppression, the
confidence map, the strict 0.6 confidence filter, and the stable descending
sort by confidence; maxConfidence is the head confidence or 0. -/
def detectFaces (frame : Frame) (candidates : List FaceCandidate) :
    DetectFacesOut :=
  let filtered := nonMaximumSuppression candidates
  let withConf := filtered.map
    (fun f => ScoredFace.mk f (calculateFaceConfidence frame f))
  let valid := List.insertionSort (fun a b => b.confidence ≤ a.confidence)
    (withConf.filter (fun sf => decide (sf.confidence > 0.6)))
  { faces := valid
    maxConfidence := match valid with | [] => 0 | sf :: _ => sf.confidence }

/-- isValidDetection of the heuristic service: exactly one surviving face
whose confidence is at least the service constant MIN_FACE_CONFIDENCE
(0.9). -/
def isValidDetection (det : DetectFacesOut) : Bool :=
  if det.faces.length ≠ 1 then false
  else if det.maxConfidence < 0.9 then false
  else true

/-- isFaceInFrame of the heuristic service: the box clears a margin of 10
percent of the smaller frame dimension from every edge. -/
def isFaceInFrame (b : FaceBox) (frame : Frame) : Bool :=
  decide ((min frame.width frame.height : Nat) * (0.1 : Rat) ≤ (b.x : Rat) ∧
    (min frame.width frame.height : Nat) * (0.1 : Rat) ≤ (b.y : Rat) ∧
    (b.x : Rat) + b.width
      ≤ (frame.width : Rat) - (min frame.width frame.height : Nat) * (0.1 : Rat) ∧
    (b.y : Rat) + b.height
      ≤ (frame.height : Rat) - (min frame.width frame.height : Nat) * (0.1 : Rat))

/-- The fixed landmark approximations of extractFacialLandmarks: eyes at 30
and 70 percent of width at 35 percent height, nose at the center, mouth at
70 percent height. -/
structure FaceLandmarks where
  leftEyeX : Rat
  leftEyeY : Rat
  rightEyeX : Rat
  rightEyeY : Rat
  noseX : Rat
  noseY : Rat
  mouthX : Rat
  mouthY : Rat
deriving DecidableEq, Repr

/-- extractFacialLandmarks of the heuristic service. -/
def extractFacialLandmarks (x y w h : Rat) : FaceLandmarks :=
  { leftEyeX := x + w * 0.3
    leftEyeY := y + h * 0.35
    rightEyeX := x + w * 0.7
    rightEyeY := y + h * 0.35
    noseX := x + w * 0.5
    noseY := y + h * 0.5
    mouthX := x + w * 0.5
    mouthY := y + h * 0.7 }

/-- The landmarks stored on a detected face (the source computes them at
detection time from the same box the pose estimator receives). -/
def landmarksOf (b : FaceBox) : FaceLandmarks :=
  extractFacialLandmarks (b.x : Rat) (b.y : Rat) (b.width : Rat) (b.height : Rat)

/-- The inter-eye pixel distance of estimateHeadPose. -/
def eyeDistanceOf (b : FaceBox) : Rat :=
  (landmarksOf b).rightEyeX - (landmarksOf b).leftEyeX

/-- The expected eye distance of estimateHeadPose: 40 percent of box width. -/
def expectedEyeDistanceOf (b : FaceBox) : Rat :=
  (b.width : Rat) * 0.4

/-- The eye distance ratio driving the yaw perspective correction. -/
def eyeDistanceRatioOf (b : FaceBox) : Rat :=
  eyeDistanceOf b / expectedEyeDistanceOf b

/-- The fractional horizontal center offset of estimateHeadPose. -/
def horizontalOffsetOf (b : FaceBox) (frame : Frame) : Rat :=
  ((b.x : Rat) + (b.width : Rat) / 2 - (frame.width : Rat) / 2)
    / ((frame.width : Rat) / 2)

/-- The fractional vertical center offset of estimateHeadPose. -/
def verticalOffsetOf (b : FaceBox) (frame : Frame) : Rat :=
  ((b.y : Rat) + (b.height : Rat) / 2 - (frame.height : Rat) / 2)
    / ((frame.height : Rat) / 2)

/-- The eye-to-nose vertical distance of estimateHeadPose. -/
def eyeToNoseDistanceOf (b : FaceBox) : Rat :=
  (landmarksOf b).noseY - (landmarksOf b).leftEyeY

/-- The nose-to-mouth vertical distance of estimateHeadPose. -/
def noseToMouthDistanceOf (b : FaceBox) : Rat :=
  (landmarksOf b).mouthY - (landmarksOf b).noseY

/-- The vertical proportion driving the pitch adjustment. -/
def actualRatioOf (b : FaceBox) : Rat :=
  eyeToNoseDistanceOf b / (eyeToNoseDistanceOf b + noseToMouthDistanceOf b)

/-- estimateHeadPose of the heuristic service: position-derived yaw and
pitch with the eye-distance perspective correction (plus or minus 15
degrees) and the facial-proportion pitch adjustment (minus or plus 10
degrees against the expected ratio 0.6 with tolerance 0.1), clamped to
[-45, 45] and [-30, 30]. -/
def estimateHeadPose (b : FaceBox) (frame : Frame) : Rat × Rat :=
  let yaw0 := horizontalOffsetOf b frame * 45
  let yaw1 :=
    if eyeDistanceRatioOf b < 0.8 then
      (if yaw0 > 0 then yaw0 + 15 else yaw0 + -15)
    else yaw0
  let pitch0 := verticalOffsetOf b frame * 30
  let pitch1 :=
    if actualRatioOf b > 0.6 + 0.1 then pitch0 - 10
    else if actualRatioOf b < 0.6 - 0.1 then pitch0 + 10
    else pitch0
  (max (-45) (min 45 yaw1), max (-30) (min 30 pitch1))

/-- The closed form asserted by claim C10 for estimateHeadPose on a
validated face, following the words of the claim: yaw is the clamped scaled
horizontal offset, pitch is the clamped scaled vertical offset plus the
constant 10 degree looking-down adjustment. To be compared with
estimateHeadPose. -/
def estimateHeadPoseClosedForm (b : FaceBox) (frame : Frame) : Rat × Rat :=
  (max (-45) (min 45 (horizontalOffsetOf b frame * 45)),
   max (-30) (min 30 (verticalOffsetOf b frame * 30 + 10)))

/-- calculateSharpness: mean absolute discrete Laplacian of the red channel
on the stride-2 interior grid of the box, divided by 50 and capped at 1. -/
def calculateSharpness (frame : Frame) (b : FaceBox) : Rat :=
  let pts := gridPoints (strideRange (b.y + 1) (b.y + b.height - 1) 2)
    (strideRange (b.x + 1) (b.x + b.width - 1) 2)
  let red := fun (p : Nat × Nat) => (frame.pixel p.1 p.2).1
  let lap := fun (p : Nat × Nat) =>
    |4 * red p - red (p.1 - 1, p.2) - red (p.1 + 1, p.2)
      - red (p.1, p.2 - 1) - red (p.1, p.2 + 1)|
  min 1 (((pts.map lap).sum / (pts.length : Rat)) / 50)

/-- calculateLightingQuality: brightness statistics on the stride-4 grid of
the box; evenness from the standard deviation against 50, a brightness
bonus for a mean in (80, 180), weighted 0.7 and 0.3; zero on an empty
sample. Math.sqrt is the abstract sqrtFn parameter. -/
def calculateLightingQuality (sqrtFn : Rat → Rat) (frame : Frame)
    (b : FaceBox) : Rat :=
  let brightnesses := (gridPoints (strideRange b.y (b.y + b.height) 4)
    (strideRange b.x (b.x + b.width) 4)).map (brightnessAt frame)
  if brightnesses.length = 0 then 0
  else
    let mean := brightnesses.sum / (brightnesses.length : Rat)
    let variance := (brightnesses.map (fun v => (v - mean) ^ 2)).sum
      / (brightnesses.length : Rat)
    let evenness := 1 - min 1 (sqrtFn variance / 50)
    let brightScore : Rat := if mean > 80 ∧ mean < 180 then 1 else 0.5
    evenness * 0.7 + brightScore * 0.3

/-- calculateQuality: 0.3 size + 0.25 position + 0.25 sharpness + 0.2
lighting (size and position recomputed by the same formulas as in
calculateFaceConfidence). -/
def calculateQuality (sqrtFn : Rat → Rat) (frame : Frame) (b : FaceBox) : Rat :=
  sizeScoreOf frame b * 0.3 + positionScoreOf frame b * 0.25
    + calculateSharpness frame b * 0.25
    + calculateLightingQuality sqrtFn frame b * 0.2

/-- createEmptyResult of the heuristic service. -/
def createEmptyResult : FaceDetectionResult :=
  { faceDetected := false, faceCount := 0, faceConfidence := 0,
    faceInFrame := false, poseBucket := none, yaw := 0, pitch := 0, quality := 0 }

/-- analyzeFrame of the heuristic FaceDetectionService: the zero-dimension
guard, the validity split with the hard-rejection record, and the valid
path computing pose, quality and bucket for the primary face. The
multi-scale window scan is modelled by the candidate list argument; the
empty-list arm of the valid path is unreachable because validity forces
exactly one surviving face. -/
def analyzeFrame (sqrtFn : Rat → Rat) (frame : Frame)
    (candidates : List FaceCandidate) : FaceDetectionResult :=
  if frame.width = 0 ∨ frame.height = 0 then createEmptyResult
  else
    let det := detectFaces frame candidates
    if isValidDetection det = false then
      { faceDetected := false
        faceCount := det.faces.length
        faceConfidence := det.maxConfidence
        faceInFrame := decide (0 < det.faces.length)
        poseBucket := none
        yaw := 0
        pitch := 0
        quality := 0 }
    else
      match det.faces with
      | [] => createEmptyResult
      | primary :: _ =>
        { faceDetected := true
          faceCount := 1
          faceConfidence := primary.confidence
          faceInFrame := isFaceInFrame primary.toFaceCandidate.toFaceBox frame
          poseBucket := classifyPose
            (estimateHeadPose primary.toFaceCandidate.toFaceBox frame).1
            (estimateHeadPose primary.toFaceCandidate.toFaceBox frame).2
          yaw := (estimateHeadPose primary.toFaceCandidate.toFaceBox frame).1
          pitch := (estimateHeadPose primary.toFaceCandidate.toFaceBox frame).2
          quality := calculateQuality sqrtFn frame
            primary.toFaceCandidate.toFaceBox }

/-- A concrete 720 x 720 black frame. -/
def blackFrame : Frame :=
  { width := 720, height := 720, pixel := fun _ _ => (0, 0, 0) }

/-- Two disjoint well-placed concrete candidate boxes with raw score 1,
both of which survive suppression and the confidence filter. -/
def twoCandidates : List FaceCandidate :=
  [{ x := 100, y := 260, width := 200, height := 200, score := 1 },
   { x := 420, y := 260, width := 200, height := 200, score := 1 }]

/-- If the per-bucket cooldown window is still open, shouldCapturePose
rejects the bucket regardless of every other field. -/
theorem shouldCapturePose_cooldown_blocks {d : FaceDetectionResult}
    {progress : PoseProgress} {last : PoseBucket → Option Int} {now : Int}
    {b : PoseBucket} (hb : d.poseBucket = some b)
    (h : now - ((last b).getD 0) < CAPTURE_COOLDOWN) :
    shouldCapturePose d progress last now = false := by
  unfold shouldCapturePose
  rcases Decidable.em (d.faceCount ≠ 1) with hc | hc
  · rw [if_pos hc]
  · rw [if_neg hc]
    split
    · rfl
    next bucket heq =>
      rw [hb] at heq
      obtain rfl : b = bucket := by injection heq
      split_ifs <;> rfl

/-- C2 counterexample: the spec scenario says classifyPose(10, 10) is none
(dead zone), but both classifier variants place (10, 10) in the DOWN bucket
(pitch 10 lies in the DOWN pitch range and yaw 10 is within plus or minus 20). -/
theorem classifyPose_ten_ten_counterexample :
    classifyPose 10 10 = some PoseBucket.DOWN ∧
    classifyPose 10 10 ≠ none ∧
    classifyPoseMLKit 10 10 = some PoseBucket.DOWN := by
  have h : classifyPose 10 10 = some PoseBucket.DOWN := by norm_num [classifyPose]
  refine ⟨h, ?_, ?_⟩
  · rw [h]; simp
  · norm_num [classifyPoseMLKit]

/-- C2 amended: the five directional scenarios map as the spec states, but
classifyPose(10, 10) = DOWN, not none; the yaw dead zone does exist at small
pitch, for example classifyPose(10, 0) = none. -/
theorem classifyPose_scenarios_amended :
    classifyPose 0 0 = some PoseBucket.FRONT ∧
    classifyPose (-20) 0 = some PoseBucket.LEFT ∧
    classifyPose 20 0 = some PoseBucket.RIGHT ∧
    classifyPose 0 (-15) = some PoseBucket.UP ∧
    classifyPose 0 15 = some PoseBucket.DOWN ∧
    classifyPose 10 10 = some PoseBucket.DOWN ∧
    classifyPose 10 0 = none := by
  refine ⟨?_, ?_, ?_, ?_, ?_, ?_, ?_⟩ <;> norm_num [classifyPose]

/-- C3 counterexample: the LEFT and UP bucket ranges are not disjoint; the
input yaw = -15, pitch = -10 satisfies the stated range conditions of both. -/
theorem bucketRanges_overlap_counterexample :
    inLEFTRange (-15) (-10) ∧ inUPRange (-15) (-10) := by
  constructor <;> norm_num [inLEFTRange, inUPRange]

/-- C3 amended: classifyPose is a pure, deterministic, total function; the
FRONT range is disjoint from the other four, LEFT is disjoint from RIGHT and
UP is disjoint from DOWN, but LEFT and RIGHT each overlap UP and DOWN; on the
overlaps the precedence order of classifyPose returns LEFT or RIGHT. -/
theorem classifyPose_total_and_partial_disjoint :
    (∀ yaw pitch : Rat, ∃! r : Option PoseBucket, classifyPose yaw pitch = r) ∧
    (∀ yaw pitch : Rat, inFRONTRange yaw pitch →
      ¬ inLEFTRange yaw pitch ∧ ¬ inRIGHTRange yaw pitch ∧
      ¬ inUPRange yaw pitch ∧ ¬ inDOWNRange yaw pitch) ∧
    (∀ yaw pitch : Rat, ¬ (inLEFTRange yaw pitch ∧ inRIGHTRange yaw pitch)) ∧
    (∀ yaw pitch : Rat, ¬ (inUPRange yaw pitch ∧ inDOWNRange yaw pitch)) ∧
    (∀ yaw pitch : Rat, inLEFTRange yaw pitch →
      classifyPose yaw pitch = some PoseBucket.LEFT) ∧
    (∀ yaw pitch : Rat, inRIGHTRange yaw pitch →
      classifyPose yaw pitch = some PoseBucket.RIGHT) := by
  refine ⟨?_, ?_, ?_, ?_, ?_, ?_⟩
  · intro yaw pitch
    exact ⟨classifyPose yaw pitch, rfl, fun _ h => h.symm⟩
  · rintro yaw pitch ⟨h1, h2, h3, h4⟩
    refine ⟨?_, ?_, ?_, ?_⟩
    · rintro ⟨g1, g2, -⟩; linarith
    · rintro ⟨g1, -⟩; linarith
    · rintro ⟨-, g2, -⟩; linarith
    · rintro ⟨g1, -⟩; linarith
  · rintro yaw pitch ⟨⟨-, h2, -⟩, ⟨g1, -⟩⟩; linarith
  · rintro yaw pitch ⟨⟨-, h2, -⟩, ⟨g1, -⟩⟩; linarith
  · rintro yaw pitch ⟨h1, h2, h3, h4⟩
    unfold classifyPose
    rw [if_neg, if_pos ⟨h1, h2, h3, h4⟩]
    rintro ⟨g1, -⟩; linarith
  · rintro yaw pitch ⟨h1, h2, h3, h4⟩
    unfold classifyPose
    rw [if_neg, if_neg, if_pos ⟨h1, h2, h3, h4⟩]
    · rintro ⟨-, g2, -⟩; linarith
    · rintro ⟨-, g2, -⟩; linarith

/-- Witness for the amended C3 theorem at concrete inputs: the FRONT point
(0, 0) meets no other range, and the overlap point (-15, -10) classifies as
LEFT by precedence. -/
theorem classifyPose_total_and_partial_disjoint_witness :
    (¬ inLEFTRange 0 0 ∧ ¬ inRIGHTRange 0 0 ∧ ¬ inUPRange 0 0 ∧ ¬ inDOWNRange 0 0) ∧
    classifyPose (-15) (-10) = some PoseBucket.LEFT :=
  ⟨classifyPose_total_and_partial_disjoint.2.1 0 0 (by norm_num [inFRONTRange]),
   classifyPose_total_and_partial_disjoint.2.2.2.2.1 (-15) (-10)
     (by norm_num [inLEFTRange])⟩

/-- When every gate holds for a bucket, shouldCapturePose returns true. -/
theorem shouldCapturePose_true_of_gates {d : FaceDetectionResult}
    {progress : PoseProgress} {last : PoseBucket → Option Int} {now : Int}
    {b : PoseBucket}
    (h1 : d.faceCount = 1) (h2 : d.poseBucket = some b)
    (h3 : d.faceDetected = true) (h4 : MIN_FACE_CONFIDENCE ≤ d.faceConfidence)
    (h5 : d.faceInFrame = true) (h6 : MIN_QUALITY_THRESHOLD ≤ d.quality)
    (h7 : progress.get b = false)
    (h8 : CAPTURE_COOLDOWN ≤ now - ((last b).getD 0)) :
    shouldCapturePose d progress last now = true := by
  unfold shouldCapturePose
  rw [if_neg (by simp [h1])]
  split
  next heq =>
    rw [h2] at heq
    cases heq
  next bucket heq =>
    rw [h2] at heq
    obtain rfl : b = bucket := by injection heq
    rw [if_neg (not_or.mpr ⟨by simp [h3], not_lt.mpr h4⟩)]
    rw [if_neg (by simp [h5])]
    rw [if_neg (not_lt.mpr h6)]
    rw [if_neg (by simp [h7])]
    rw [if_neg (not_lt.mpr h8)]

/-- A tick that initiates an upload does so for the bucket of its detection
and stamps the cooldown ledger with the tick instant. -/
theorem analysisTick_fired {s : CaptureState} {d : FaceDetectionResult}
    {now : Int} {b : PoseBucket}
    (h : (analysisTick s d now).uploadFired = some b) :
    d.poseBucket = some b ∧
    (analysisTick s d now).state.lastCaptureTime b = some now := by
  unfold analysisTick at h ⊢
  by_cases ha : s.active = false
  · rw [if_pos ha] at h
    exact absurd h (by simp)
  · rw [if_neg ha] at h ⊢
    by_cases hsc : shouldCapturePose d s.poseProgress s.lastCaptureTime now = true
    · rw [if_pos hsc] at h ⊢
      cases hbv : d.poseBucket with
      | none =>
        rw [hbv] at h
        exact absurd h (by simp)
      | some bucket =>
        simp only [hbv] at h ⊢
        simp only [Option.some.injEq] at h ⊢
        obtain rfl : bucket = b := by simpa using h
        exact ⟨rfl, by simp⟩
    · rw [if_neg hsc] at h
      exact absurd h (by simp)

/-- A tick whose gating check fails initiates no upload. -/
theorem analysisTick_not_fired {s : CaptureState} {d : FaceDetectionResult}
    {now : Int}
    (h : shouldCapturePose d s.poseProgress s.lastCaptureTime now = false) :
    (analysisTick s d now).uploadFired = none := by
  unfold analysisTick
  by_cases ha : s.active = false
  · rw [if_pos ha]
  · rw [if_neg ha, if_neg (by simp [h])]

/-- Processing an upload response never changes the cooldown ledger. -/
theorem onUploadResponse_keeps_ledger (s : CaptureState) (b : PoseBucket)
    (r : FrameUploadResult) :
    (onUploadResponse s b r).state.lastCaptureTime = s.lastCaptureTime := by
  unfold onUploadResponse
  split_ifs <;> rfl

/-- C5: a tick that initiates an upload for a bucket stamps
CooldownLedger[bucket] = now at initiation, before and independently of the
response; while less than 2000 ms have passed, a later qualifying tick for
the same bucket initiates no upload, with or without an intervening
response. -/
theorem cooldown_limits_uploads
    (s : CaptureState) (d1 d2 : FaceDetectionResult) (b : PoseBucket)
    (now1 now2 : Int) (r : FrameUploadResult)
    (hfire : (analysisTick s d1 now1).uploadFired = some b)
    (hb2 : d2.poseBucket = some b)
    (hwin : now2 - now1 < CAPTURE_COOLDOWN) :
    (analysisTick s d1 now1).state.lastCaptureTime b = some now1 ∧
    (onUploadResponse (analysisTick s d1 now1).state b r).state.lastCaptureTime b
      = some now1 ∧
    (analysisTick (analysisTick s d1 now1).state d2 now2).uploadFired = none ∧
    (analysisTick (onUploadResponse (analysisTick s d1 now1).state b r).state
      d2 now2).uploadFired = none := by
  obtain ⟨hb1, hledger⟩ := analysisTick_fired hfire
  refine ⟨hledger, ?_, ?_, ?_⟩
  · rw [onUploadResponse_keeps_ledger]
    exact hledger
  · apply analysisTick_not_fired
    apply shouldCapturePose_cooldown_blocks hb2
    rw [hledger]
    simpa using hwin
  · apply analysisTick_not_fired
    apply shouldCapturePose_cooldown_blocks hb2
    rw [onUploadResponse_keeps_ledger, hledger]
    simpa using hwin

/-- Witness for C5 at a concrete run: a qualifying FRONT tick at t = 100000
fires and stamps the ledger, and a second qualifying FRONT tick at
t = 101000 does not fire. -/
theorem cooldown_limits_uploads_witness :
    (analysisTick activeState (qualifyingDetection PoseBucket.FRONT)
      100000).state.lastCaptureTime PoseBucket.FRONT = some 100000 ∧
    (analysisTick (analysisTick activeState
      (qualifyingDetection PoseBucket.FRONT) 100000).state
      (qualifyingDetection PoseBucket.FRONT) 101000).uploadFired = none := by
  have hsc : shouldCapturePose (qualifyingDetection PoseBucket.FRONT)
      activeState.poseProgress activeState.lastCaptureTime 100000 = true := by
    apply shouldCapturePose_true_of_gates (b := PoseBucket.FRONT) rfl rfl rfl
    · norm_num [qualifyingDetection, MIN_FACE_CONFIDENCE]
    · rfl
    · norm_num [qualifyingDetection, MIN_QUALITY_THRESHOLD]
    · rfl
    · norm_num [activeState, CAPTURE_COOLDOWN]
  have hfire : (analysisTick activeState (qualifyingDetection PoseBucket.FRONT)
      100000).uploadFired = some PoseBucket.FRONT := by
    unfold analysisTick
    rw [if_neg (by norm_num [activeState]), if_pos hsc]
    simp [qualifyingDetection]
  have h := cooldown_limits_uploads activeState
    (qualifyingDetection PoseBucket.FRONT) (qualifyingDetection PoseBucket.FRONT)
    PoseBucket.FRONT 100000 101000 rejectResult hfire rfl
    (by norm_num [CAPTURE_COOLDOWN])
  exact ⟨h.1, h.2.2.1⟩

/-- C6: a successful but rejecting upload response (accepted = false) leaves
the controller state, in particular PoseProgress, unchanged, surfaces the
server message verbatim, does not complete, and the same bucket qualifies
again once the cooldown window has elapsed and the gates hold. -/
theorem rejected_upload_no_mark
    (s : CaptureState) (b : PoseBucket) (r : FrameUploadResult)
    (d : FaceDetectionResult) (now : Int)
    (hs : r.success = true) (ha : r.accepted = false) :
    (onUploadResponse s b r).state = s ∧
    (onUploadResponse s b r).surfacedMessage = some r.message ∧
    (onUploadResponse s b r).completedTransition = false ∧
    (d.faceCount = 1 → d.poseBucket = some b → d.faceDetected = true →
     MIN_FACE_CONFIDENCE ≤ d.faceConfidence → d.faceInFrame = true →
     MIN_QUALITY_THRESHOLD ≤ d.quality → s.poseProgress.get b = false →
     CAPTURE_COOLDOWN ≤ now - ((s.lastCaptureTime b).getD 0) →
     shouldCapturePose d (onUploadResponse s b r).state.poseProgress
       (onUploadResponse s b r).state.lastCaptureTime now = true) := by
  have hstate : (onUploadResponse s b r).state = s := by
    unfold onUploadResponse
    rw [if_neg (by simp [hs]), if_pos ha]
  refine ⟨hstate, ?_, ?_, ?_⟩
  · unfold onUploadResponse
    rw [if_neg (by simp [hs]), if_pos ha]
  · unfold onUploadResponse
    rw [if_neg (by simp [hs]), if_pos ha]
  · intro g1 g2 g3 g4 g5 g6 g7 g8
    rw [hstate]
    exact shouldCapturePose_true_of_gates g1 g2 g3 g4 g5 g6 g7 g8

/-- Witness for C6 at a concrete rejection: state unchanged, the server
message surfaced verbatim, and the bucket qualifying again at a later tick. -/
theorem rejected_upload_no_mark_witness :
    (onUploadResponse activeState PoseBucket.FRONT rejectResult).state
      = activeState ∧
    (onUploadResponse activeState PoseBucket.FRONT rejectResult).surfacedMessage
      = some rejectResult.message ∧
    shouldCapturePose (qualifyingDetection PoseBucket.FRONT)
      (onUploadResponse activeState PoseBucket.FRONT rejectResult).state.poseProgress
      (onUploadResponse activeState PoseBucket.FRONT rejectResult).state.lastCaptureTime
      100000 = true := by
  have h := rejected_upload_no_mark activeState PoseBucket.FRONT rejectResult
    (qualifyingDetection PoseBucket.FRONT) 100000 rfl rfl
  refine ⟨h.1, h.2.1, ?_⟩
  apply h.2.2.2 rfl rfl rfl
  · norm_num [qualifyingDetection, MIN_FACE_CONFIDENCE]
  · rfl
  · norm_num [qualifyingDetection, MIN_QUALITY_THRESHOLD]
  · rfl
  · norm_num [activeState, CAPTURE_COOLDOWN]

/-- C7: cancelling while Active clears all five PoseProgress flags, clears
the CooldownLedger, deactivates the controller, stops the loop, releases the
camera, and any already scheduled tick against the reset state is a no-op
(no upload fires), because the tick continuation checks the active flag. -/
theorem cancel_clears_state (s : CaptureState) (_h : s.active = true) :
    (∀ b, (resetCapture s).state.poseProgress.get b = false) ∧
    (∀ b, (resetCapture s).state.lastCaptureTime b = none) ∧
    (resetCapture s).state.active = false ∧
    (resetCapture s).state.loopRunning = false ∧
    (resetCapture s).state.cameraOn = false ∧
    (∀ d now, analysisTick (resetCapture s).state d now =
      { state := (resetCapture s).state, uploadFired := none }) := by
  refine ⟨?_, ?_, rfl, rfl, rfl, ?_⟩
  · intro b
    cases b <;> rfl
  · intro b
    rfl
  · intro d now
    rfl

/-- Witness for C7 at a concrete active state. -/
theorem cancel_clears_state_witness :
    (resetCapture activeState).state.poseProgress.get PoseBucket.LEFT = false ∧
    (resetCapture activeState).state.lastCaptureTime PoseBucket.LEFT = none ∧
    (resetCapture activeState).state.active = false ∧
    analysisTick (resetCapture activeState).state
      (qualifyingDetection PoseBucket.LEFT) 100000 =
      { state := (resetCapture activeState).state, uploadFired := none } :=
  ⟨(cancel_clears_state activeState rfl).1 PoseBucket.LEFT,
   (cancel_clears_state activeState rfl).2.1 PoseBucket.LEFT,
   (cancel_clears_state activeState rfl).2.2.1,
   (cancel_clears_state activeState rfl).2.2.2.2.2
     (qualifyingDetection PoseBucket.LEFT) 100000⟩

/-- C8: shouldCapturePose returns false whenever faceCount is not 1
(including 0 and 2) regardless of every other field, and it returns true
only when all seven gating rules hold: exactly one face, a non-none bucket,
confidence at least 0.9, face fully in frame, quality at least 0.85, bucket
not already captured, and cooldown elapsed. -/
theorem shouldCapturePose_gates :
    (∀ (d : FaceDetectionResult) (prog : PoseProgress)
       (last : PoseBucket → Option Int) (now : Int),
       d.faceCount ≠ 1 → shouldCapturePose d prog last now = false) ∧
    (∀ (d : FaceDetectionResult) (prog : PoseProgress)
       (last : PoseBucket → Option Int) (now : Int),
       shouldCapturePose d prog last now = true →
       d.faceCount = 1 ∧
       (∃ b, d.poseBucket = some b ∧ prog.get b = false ∧
             CAPTURE_COOLDOWN ≤ now - ((last b).getD 0)) ∧
       MIN_FACE_CONFIDENCE ≤ d.faceConfidence ∧
       d.faceInFrame = true ∧
       MIN_QUALITY_THRESHOLD ≤ d.quality) := by
  constructor
  · intro d prog last now hc
    unfold shouldCapturePose
    rw [if_pos hc]
  · intro d prog last now h
    unfold shouldCapturePose at h
    split at h
    · cases h
    next hc =>
      push_neg at hc
      refine ⟨hc, ?_⟩
      split at h
      · cases h
      next bucket hbv =>
        split_ifs at h with g1 g2 g3 g4 g5
        push_neg at g1
        refine ⟨⟨bucket, hbv, ?_, not_lt.mp g5⟩, g1.2, ?_, not_lt.mp g3⟩
        · simpa using g4
        · simpa using g2

/-- Witness for C8: a two-face detection and a zero-face detection are both
rejected. -/
theorem shouldCapturePose_gates_witness :
    shouldCapturePose { initialDetection with faceCount := 2 }
      PoseProgress.initial (fun _ => none) 100000 = false ∧
    shouldCapturePose { initialDetection with faceCount := 0 }
      PoseProgress.initial (fun _ => none) 100000 = false :=
  ⟨shouldCapturePose_gates.1 _ _ _ _ (by decide),
   shouldCapturePose_gates.1 _ _ _ _ (by decide)⟩

/-- When every bucket other than the uploaded one is already marked, an
accepting response marks the last bucket, making the progress record
complete. -/
theorem isCaptureComplete_set_of_others {p : PoseProgress} {b : PoseBucket}
    (h : ∀ b2, b2 ≠ b → p.get b2 = true) :
    isCaptureComplete (p.set b true) = true := by
  cases b
  case FRONT =>
    have hL := h PoseBucket.LEFT (by decide)
    have hR := h PoseBucket.RIGHT (by decide)
    have hU := h PoseBucket.UP (by decide)
    have hD := h PoseBucket.DOWN (by decide)
    simp only [PoseProgress.get] at hL hR hU hD
    simp [isCaptureComplete, PoseProgress.set, hL, hR, hU, hD]
  case LEFT =>
    have hF := h PoseBucket.FRONT (by decide)
    have hR := h PoseBucket.RIGHT (by decide)
    have hU := h PoseBucket.UP (by decide)
    have hD := h PoseBucket.DOWN (by decide)
    simp only [PoseProgress.get] at hF hR hU hD
    simp [isCaptureComplete, PoseProgress.set, hF, hR, hU, hD]
  case RIGHT =>
    have hF := h PoseBucket.FRONT (by decide)
    have hL := h PoseBucket.LEFT (by decide)
    have hU := h PoseBucket.UP (by decide)
    have hD := h PoseBucket.DOWN (by decide)
    simp only [PoseProgress.get] at hF hL hU hD
    simp [isCaptureComplete, PoseProgress.set, hF, hL, hU, hD]
  case UP =>
    have hF := h PoseBucket.FRONT (by decide)
    have hL := h PoseBucket.LEFT (by decide)
    have hR := h PoseBucket.RIGHT (by decide)
    have hD := h PoseBucket.DOWN (by decide)
    simp only [PoseProgress.get] at hF hL hR hD
    simp [isCaptureComplete, PoseProgress.set, hF, hL, hR, hD]
  case DOWN =>
    have hF := h PoseBucket.FRONT (by decide)
    have hL := h PoseBucket.LEFT (by decide)
    have hR := h PoseBucket.RIGHT (by decide)
    have hU := h PoseBucket.UP (by decide)
    simp only [PoseProgress.get] at hF hL hR hU
    simp [isCaptureComplete, PoseProgress.set, hF, hL, hR, hU]

/-- C1 counterexample: an accepting response carrying completed = true makes
the controller run the Completed transition even though PoseProgress does not
contain all five buckets: from a state holding only FRONT, an accepted LEFT
response with completed = true transitions while UP is still unmarked. -/
theorem completion_without_five_counterexample :
    (onUploadResponse partialProgressState PoseBucket.LEFT
      acceptCompleteResult).completedTransition = true ∧
    (onUploadResponse partialProgressState PoseBucket.LEFT
      acceptCompleteResult).state.poseProgress.UP = false ∧
    isCaptureComplete (onUploadResponse partialProgressState PoseBucket.LEFT
      acceptCompleteResult).state.poseProgress = false := by
  refine ⟨rfl, rfl, rfl⟩

/-- C1 amended: the controller transitions to Completed exactly when an
uploadFrame response is successful, accepted, and carries completed = true;
local PoseProgress is not consulted for the transition. In particular a
pending or rejected final upload never completes, an accepting completed
response for the final bucket leaves all five buckets marked, on transition
the controller deactivates, stops the tick loop, releases the camera and
notifies the backend when a session id is present, and a detection tick by
itself never changes the active flag. -/
theorem completion_iff_server_flag :
    (∀ (s : CaptureState) (b : PoseBucket) (r : FrameUploadResult),
      (onUploadResponse s b r).completedTransition = true ↔
        (r.success = true ∧ r.accepted = true ∧ r.completed = true)) ∧
    (∀ (s : CaptureState) (b : PoseBucket) (r : FrameUploadResult),
      (onUploadResponse s b r).completedTransition = true →
        (onUploadResponse s b r).state.active = false ∧
        (onUploadResponse s b r).state.loopRunning = false ∧
        (onUploadResponse s b r).state.cameraOn = false ∧
        (onUploadResponse s b r).notifiedServerComplete
          = decide (s.sessionId ≠ "")) ∧
    (∀ (s : CaptureState) (b : PoseBucket) (r : FrameUploadResult),
      r.success = true → r.accepted = true → r.completed = true →
      (∀ b2, b2 ≠ b → s.poseProgress.get b2 = true) →
      isCaptureComplete (onUploadResponse s b r).state.poseProgress = true) ∧
    (∀ (s : CaptureState) (d : FaceDetectionResult) (now : Int),
      (analysisTick s d now).state.active = s.active) := by
  refine ⟨?_, ?_, ?_, ?_⟩
  · intro s b r
    rcases r with ⟨su, ac, pr, co, q, m⟩
    cases su <;> cases ac <;> cases co <;> simp [onUploadResponse]
  · intro s b r h
    rcases r with ⟨su, ac, pr, co, q, m⟩
    cases su <;> cases ac <;> cases co <;> simp_all [onUploadResponse]
  · intro s b r hs ha hc hall
    have hp : (onUploadResponse s b r).state.poseProgress
        = s.poseProgress.set b true := by
      simp [onUploadResponse, hs, ha, hc]
    rw [hp]
    exact isCaptureComplete_set_of_others hall
  · intro s d now
    unfold analysisTick
    by_cases ha : s.active = false
    · rw [if_pos ha]
    · rw [if_neg ha]
      by_cases hsc : shouldCapturePose d s.poseProgress s.lastCaptureTime now
          = true
      · rw [if_pos hsc]
        cases d.poseBucket <;> rfl
      · rw [if_neg hsc]

/-- Witness for the amended C1 theorem: the accepting completed response for
the last unmarked bucket DOWN completes the progress record. -/
theorem completion_iff_server_flag_witness :
    isCaptureComplete (onUploadResponse fourProgressState PoseBucket.DOWN
      acceptCompleteResult).state.poseProgress = true :=
  completion_iff_server_flag.2.2.1 fourProgressState PoseBucket.DOWN
    acceptCompleteResult rfl rfl rfl
    (by intro b2 hb2; cases b2 <;> first | rfl | exact absurd rfl hb2)

/-- The landmark eye distance is always exactly 40 percent of the box
width. -/
theorem eyeDistanceOf_eq (b : FaceBox) :
    eyeDistanceOf b = (b.width : Rat) * 0.4 := by
  unfold eyeDistanceOf landmarksOf extractFacialLandmarks
  ring

/-- On a box of positive width the eye distance ratio is exactly 1. -/
theorem eyeDistanceRatioOf_eq_one (b : FaceBox) (hw : 0 < b.width) :
    eyeDistanceRatioOf b = 1 := by
  have hw2 : (0 : Rat) < (b.width : Rat) := by exact_mod_cast hw
  unfold eyeDistanceRatioOf expectedEyeDistanceOf
  rw [eyeDistanceOf_eq]
  exact div_self (by positivity)

/-- On a box of positive height the vertical proportion is exactly 3/7. -/
theorem actualRatioOf_eq (b : FaceBox) (hh : 0 < b.height) :
    actualRatioOf b = 3 / 7 := by
  have hh2 : (0 : Rat) < (b.height : Rat) := by exact_mod_cast hh
  have h1 : eyeToNoseDistanceOf b = (b.height : Rat) * 0.15 := by
    unfold eyeToNoseDistanceOf landmarksOf extractFacialLandmarks
    ring
  have h2 : noseToMouthDistanceOf b = (b.height : Rat) * 0.2 := by
    unfold noseToMouthDistanceOf landmarksOf extractFacialLandmarks
    ring
  unfold actualRatioOf
  rw [h1, h2, div_eq_iff (by nlinarith)]
  ring

/-- C10: for every face box with positive dimensions, the landmark eye
distance is exactly 0.4 times the box width, the eye distance ratio is
exactly 1 (so the yaw perspective correction never fires), the vertical
proportion is exactly 3/7 which is below 0.5 (so the plus 10 degree pitch
adjustment fires on every frame), and estimateHeadPose coincides with the
claimed closed form. -/
theorem estimateHeadPose_closed_form (b : FaceBox) (frame : Frame)
    (hw : 0 < b.width) (hh : 0 < b.height) :
    eyeDistanceOf b = (b.width : Rat) * 0.4 ∧
    eyeDistanceRatioOf b = 1 ∧
    actualRatioOf b = 3 / 7 ∧
    estimateHeadPose b frame = estimateHeadPoseClosedForm b frame := by
  have h1 := eyeDistanceRatioOf_eq_one b hw
  have h2 := actualRatioOf_eq b hh
  refine ⟨eyeDistanceOf_eq b, h1, h2, ?_⟩
  simp only [estimateHeadPose, estimateHeadPoseClosedForm, h1, h2]
  norm_num

/-- Witness for C10 at a concrete validated box inside the concrete frame. -/
theorem estimateHeadPose_closed_form_witness :
    estimateHeadPose { x := 100, y := 100, width := 200, height := 200 }
      blackFrame
      = estimateHeadPoseClosedForm { x := 100, y := 100, width := 200, height := 200 }
        blackFrame ∧
    eyeDistanceRatioOf { x := 100, y := 100, width := 200, height := 200 } = 1 :=
  ⟨(estimateHeadPose_closed_form
      { x := 100, y := 100, width := 200, height := 200 } blackFrame
      (by decide) (by decide)).2.2.2,
   (estimateHeadPose_closed_form
      { x := 100, y := 100, width := 200, height := 200 } blackFrame
      (by decide) (by decide)).2.1⟩

/-- Bounds for the capped complement shape 1 - min 1 t with t nonnegative. -/
theorem one_sub_min_bounds {t : Rat} (ht : 0 ≤ t) :
    0 ≤ 1 - min 1 t ∧ 1 - min 1 t ≤ 1 := by
  constructor
  · have := min_le_left (1 : Rat) t
    linarith
  · have : 0 ≤ min (1 : Rat) t := le_min (by norm_num) ht
    linarith

/-- The position score always lies in [0, 1]. -/
theorem positionScoreOf_bounds (frame : Frame) (b : FaceBox) :
    0 ≤ positionScoreOf frame b ∧ positionScoreOf frame b ≤ 1 := by
  simp only [positionScoreOf]
  exact one_sub_min_bounds (by positivity)

/-- The size score always lies in [-2/3, 1]: inside the admissible area
window the distance to the optimum 0.15 is at most 0.25, and 0.25 / 0.15 is
5/3. -/
theorem sizeScoreOf_bounds (frame : Frame) (b : FaceBox) :
    -(2/3) ≤ sizeScoreOf frame b ∧ sizeScoreOf frame b ≤ 1 := by
  simp only [sizeScoreOf]
  split_ifs with hin
  · obtain ⟨h1, h2⟩ := hin
    have habs : |((b.width : Rat) * b.height)
        / ((frame.width : Rat) * frame.height) - 0.15| ≤ 0.25 :=
      abs_le.mpr ⟨by linarith, by linarith⟩
    have hd1 : |((b.width : Rat) * b.height)
        / ((frame.width : Rat) * frame.height) - 0.15| / 0.15 ≤ 5/3 := by
      rw [div_le_iff₀ (by norm_num : (0:Rat) < 0.15)]
      calc |((b.width : Rat) * b.height)
          / ((frame.width : Rat) * frame.height) - 0.15| ≤ 0.25 := habs
        _ = 5/3 * 0.15 := by norm_num
    have hd0 : 0 ≤ |((b.width : Rat) * b.height)
        / ((frame.width : Rat) * frame.height) - 0.15| / 0.15 :=
      div_nonneg (abs_nonneg _) (by norm_num)
    constructor <;> linarith
  · norm_num

/-- Confidence of a candidate whose raw score lies in (0.6, 1] is within
[0, 1]. -/
theorem calculateFaceConfidence_bounds (frame : Frame) (f : FaceCandidate)
    (hs1 : 0.6 < f.score) (hs2 : f.score ≤ 1) :
    0 ≤ calculateFaceConfidence frame f ∧
    calculateFaceConfidence frame f ≤ 1 := by
  obtain ⟨hsz1, hsz2⟩ := sizeScoreOf_bounds frame f.toFaceBox
  obtain ⟨hp1, hp2⟩ := positionScoreOf_bounds frame f.toFaceBox
  unfold calculateFaceConfidence
  constructor <;> linarith

/-- The raw region score is capped at 1. -/
theorem evaluateFaceRegion_le_one (frame : Frame) (x y w h : Nat) :
    evaluateFaceRegion frame x y w h ≤ 1 := by
  simp only [evaluateFaceRegion]
  exact min_le_left _ _

/-- The sharpness score always lies in [0, 1]. -/
theorem calculateSharpness_bounds (frame : Frame) (b : FaceBox) :
    0 ≤ calculateSharpness frame b ∧ calculateSharpness frame b ≤ 1 := by
  simp only [calculateSharpness]
  refine ⟨le_min (by norm_num) ?_, min_le_left _ _⟩
  apply div_nonneg
  · apply div_nonneg
    · apply List.sum_nonneg
      intro v hv
      obtain ⟨p, hp, rfl⟩ := List.mem_map.mp hv
      exact abs_nonneg _
    · exact Nat.cast_nonneg _
  · norm_num

/-- Combination bounds for the lighting score shape. -/
theorem lighting_combination {e bsc : Rat} (he1 : 0 ≤ e) (he2 : e ≤ 1)
    (hb : bsc = 1 ∨ bsc = 0.5) :
    0 ≤ e * 0.7 + bsc * 0.3 ∧ e * 0.7 + bsc * 0.3 ≤ 1 := by
  rcases hb with rfl | rfl <;> constructor <;> linarith

/-- With a nonnegative square root the lighting score lies in [0, 1]. -/
theorem calculateLightingQuality_bounds (sqrtFn : Rat → Rat)
    (hsqrt : ∀ q, 0 ≤ sqrtFn q) (frame : Frame) (b : FaceBox) :
    0 ≤ calculateLightingQuality sqrtFn frame b ∧
    calculateLightingQuality sqrtFn frame b ≤ 1 := by
  simp only [calculateLightingQuality]
  split_ifs with h0 hm
  · norm_num
  · exact lighting_combination
      (one_sub_min_bounds (div_nonneg (hsqrt _) (by norm_num))).1
      (one_sub_min_bounds (div_nonneg (hsqrt _) (by norm_num))).2
      (Or.inl rfl)
  · exact lighting_combination
      (one_sub_min_bounds (div_nonneg (hsqrt _) (by norm_num))).1
      (one_sub_min_bounds (div_nonneg (hsqrt _) (by norm_num))).2
      (Or.inr rfl)

/-- When the candidate confidence reaches the validity bar 0.9, the shared
size score is forced to at least 2/3, and the resulting quality lies in
[0, 1]. -/
theorem calculateQuality_bounds_of_conf (sqrtFn : Rat → Rat)
    (hsqrt : ∀ q, 0 ≤ sqrtFn q) (frame : Frame) (f : FaceCandidate)
    (hs2 : f.score ≤ 1)
    (hconf : 0.9 ≤ calculateFaceConfidence frame f) :
    0 ≤ calculateQuality sqrtFn frame f.toFaceBox ∧
    calculateQuality sqrtFn frame f.toFaceBox ≤ 1 := by
  obtain ⟨hsz1, hsz2⟩ := sizeScoreOf_bounds frame f.toFaceBox
  obtain ⟨hp1, hp2⟩ := positionScoreOf_bounds frame f.toFaceBox
  obtain ⟨hsh1, hsh2⟩ := calculateSharpness_bounds frame f.toFaceBox
  obtain ⟨hl1, hl2⟩ := calculateLightingQuality_bounds sqrtFn hsqrt frame f.toFaceBox
  have hsz : 2/3 ≤ sizeScoreOf frame f.toFaceBox := by
    unfold calculateFaceConfidence at hconf
    linarith
  unfold calculateQuality
  constructor <;> linarith

/-- Every output of the greedy keep loop comes from its inputs. -/
theorem mem_nmsLoop {f : FaceCandidate} :
    ∀ (rest kept : List FaceCandidate),
      f ∈ nmsLoop kept rest → f ∈ kept ∨ f ∈ rest := by
  intro rest
  induction rest with
  | nil =>
    intro kept h
    exact Or.inl h
  | cons a t ih =>
    intro kept h
    unfold nmsLoop at h
    split_ifs at h
    · rcases ih _ h with hk | ht
      · rcases List.mem_append.mp hk with hk2 | ha
        · exact Or.inl hk2
        · simp only [List.mem_singleton] at ha
          subst ha
          exact Or.inr (List.mem_cons_self f t)
      · exact Or.inr (List.mem_cons_of_mem a ht)
    · rcases ih _ h with hk | ht
      · exact Or.inl hk
      · exact Or.inr (List.mem_cons_of_mem a ht)

/-- Suppression only filters: every survivor is one of the candidates. -/
theorem mem_nonMaximumSuppression {f : FaceCandidate}
    {cs : List FaceCandidate} (h : f ∈ nonMaximumSuppression cs) : f ∈ cs := by
  unfold nonMaximumSuppression at h
  rcases mem_nmsLoop _ _ h with hk | hr
  · cases hk
  · exact (List.perm_insertionSort _ cs).subset hr

/-- maxConfidence is by construction the head confidence of the surviving
list, or 0. -/
theorem detectFaces_max_eq (frame : Frame) (cs : List FaceCandidate) :
    (detectFaces frame cs).maxConfidence =
      (match (detectFaces frame cs).faces with
       | [] => 0
       | sf :: _ => sf.confidence) := rfl

/-- Every surviving face of detectFaces is one of the candidates, carries
the confidence computed for it, and passed the strict 0.6 filter. -/
theorem detectFaces_faces_spec {frame : Frame} {cs : List FaceCandidate}
    {sf : ScoredFace} (h : sf ∈ (detectFaces frame cs).faces) :
    sf.toFaceCandidate ∈ cs ∧
    sf.confidence = calculateFaceConfidence frame sf.toFaceCandidate ∧
    0.6 < sf.confidence := by
  simp only [detectFaces] at h
  have h1 := (List.perm_insertionSort _ _).subset h
  obtain ⟨h2, h3⟩ := List.mem_filter.mp h1
  obtain ⟨f0, hf0, heq⟩ := List.mem_map.mp h2
  subst heq
  refine ⟨mem_nonMaximumSuppression hf0, rfl, ?_⟩
  simpa using h3

/-- Under the scan invariant on candidate scores, maxConfidence lies in
[0, 1]. -/
theorem detectFaces_maxConfidence_bounds (frame : Frame)
    (cs : List FaceCandidate)
    (hscores : ∀ c ∈ cs,
      c.score = evaluateFaceRegion frame c.x c.y c.width c.height ∧
      0.6 < c.score) :
    0 ≤ (detectFaces frame cs).maxConfidence ∧
    (detectFaces frame cs).maxConfidence ≤ 1 := by
  rw [detectFaces_max_eq]
  cases hfa : (detectFaces frame cs).faces with
  | nil => norm_num
  | cons sf rest =>
    obtain ⟨hmem, hconfeq, hgt⟩ := detectFaces_faces_spec
      (hfa ▸ List.mem_cons_self sf rest)
    obtain ⟨hseq, hsgt⟩ := hscores _ hmem
    have hsle : sf.toFaceCandidate.score ≤ 1 := by
      rw [hseq]
      exact evaluateFaceRegion_le_one frame _ _ _ _
    have hb := calculateFaceConfidence_bounds frame sf.toFaceCandidate hsgt hsle
    show 0 ≤ sf.confidence ∧ sf.confidence ≤ 1
    rw [hconfeq]
    exact hb

/-- A detection that is not invalid has exactly one surviving face with
confidence at least 0.9. -/
theorem isValidDetection_eq_true {det : DetectFacesOut}
    (h : ¬ isValidDetection det = false) :
    det.faces.length = 1 ∧ 0.9 ≤ det.maxConfidence := by
  unfold isValidDetection at h
  split_ifs at h with h1 h2
  · exact absurd rfl h
  · exact absurd rfl h
  · push_neg at h1
    exact ⟨h1, not_lt.mp h2⟩

/-- A surviving-face count other than one, or a top confidence below 0.9,
makes the detection invalid. -/
theorem isValidDetection_eq_false {det : DetectFacesOut}
    (h : det.faces.length ≠ 1 ∨ det.maxConfidence < 0.9) :
    isValidDetection det = false := by
  unfold isValidDetection
  split_ifs with h1 h2
  · rfl
  · rfl
  · rcases h with h | h
    · exact absurd h h1
    · exact absurd h h2

/-- C9: every DetectionResult produced by analyzeFrame has faceConfidence in
[0, 1] and quality in [0, 1], for every frame and every candidate list
satisfying the scan invariant (each candidate scored by evaluateFaceRegion
with a score above 0.6) and any nonnegative square root function. -/
theorem analyzeFrame_ranges
    (sqrtFn : Rat → Rat) (frame : Frame) (candidates : List FaceCandidate)
    (hsqrt : ∀ q, 0 ≤ sqrtFn q)
    (hscores : ∀ c ∈ candidates,
      c.score = evaluateFaceRegion frame c.x c.y c.width c.height ∧
      0.6 < c.score) :
    0 ≤ (analyzeFrame sqrtFn frame candidates).faceConfidence ∧
    (analyzeFrame sqrtFn frame candidates).faceConfidence ≤ 1 ∧
    0 ≤ (analyzeFrame sqrtFn frame candidates).quality ∧
    (analyzeFrame sqrtFn frame candidates).quality ≤ 1 := by
  by_cases hdim : frame.width = 0 ∨ frame.height = 0
  · simp only [analyzeFrame, if_pos hdim, createEmptyResult]
    norm_num
  · by_cases hvalid : isValidDetection (detectFaces frame candidates) = false
    · have hmb := detectFaces_maxConfidence_bounds frame candidates hscores
      simp only [analyzeFrame, if_neg hdim, if_pos hvalid]
      exact ⟨hmb.1, hmb.2, le_refl 0, by norm_num⟩
    · obtain ⟨hlen, hmax⟩ := isValidDetection_eq_true hvalid
      simp only [analyzeFrame, if_neg hdim, if_neg hvalid]
      cases hfa : (detectFaces frame candidates).faces with
      | nil =>
        simp only [createEmptyResult]
        norm_num
      | cons primary rest =>
        obtain ⟨hmem, hconfeq, hgt⟩ := detectFaces_faces_spec
          (hfa ▸ List.mem_cons_self primary rest)
        obtain ⟨hseq, hsgt⟩ := hscores _ hmem
        have hsle : primary.toFaceCandidate.score ≤ 1 := by
          rw [hseq]
          exact evaluateFaceRegion_le_one frame _ _ _ _
        have hcb := calculateFaceConfidence_bounds frame
          primary.toFaceCandidate hsgt hsle
        rw [detectFaces_max_eq, hfa] at hmax
        have hconf09 : 0.9 ≤ calculateFaceConfidence frame primary.toFaceCandidate := by
          rw [← hconfeq]
          exact hmax
        have hqb := calculateQuality_bounds_of_conf sqrtFn hsqrt frame
          primary.toFaceCandidate hsle hconf09
        show 0 ≤ primary.confidence ∧ primary.confidence ≤ 1 ∧
          0 ≤ calculateQuality sqrtFn frame primary.toFaceCandidate.toFaceBox ∧
          calculateQuality sqrtFn frame primary.toFaceCandidate.toFaceBox ≤ 1
        rw [hconfeq]
        exact ⟨hcb.1, hcb.2, hqb.1, hqb.2⟩

/-- Witness for C9 on a concrete frame and candidate list. -/
theorem analyzeFrame_ranges_witness :
    0 ≤ (analyzeFrame (fun _ => 0) blackFrame []).faceConfidence ∧
    (analyzeFrame (fun _ => 0) blackFrame []).faceConfidence ≤ 1 ∧
    0 ≤ (analyzeFrame (fun _ => 0) blackFrame []).quality ∧
    (analyzeFrame (fun _ => 0) blackFrame []).quality ≤ 1 :=
  analyzeFrame_ranges (fun _ => 0) blackFrame []
    (fun _ => le_refl 0) (fun c hc => absurd hc (List.not_mem_nil c))

/-- The concrete two-candidate input leaves exactly two surviving faces. -/
theorem detectFaces_twoCandidates_length :
    (detectFaces blackFrame twoCandidates).faces.length = 2 := by
  norm_num [detectFaces, twoCandidates, blackFrame, nonMaximumSuppression,
    nmsLoop, List.insertionSort, List.orderedInsert, calculateOverlap,
    calculateFaceConfidence, sizeScoreOf, positionScoreOf, List.filter,
    List.all_cons, List.all_nil]

/-- C4 counterexample: on two surviving candidates the heuristic
analyzeFrame reports faceDetected = false, not true as the claim states,
together with faceCount = 2, faceInFrame = true, no pose bucket and zero
quality. -/
theorem analyzeFrame_two_faces_counterexample :
    (analyzeFrame (fun _ => 0) blackFrame twoCandidates).faceDetected = false ∧
    (analyzeFrame (fun _ => 0) blackFrame twoCandidates).faceCount = 2 ∧
    (analyzeFrame (fun _ => 0) blackFrame twoCandidates).faceInFrame = true ∧
    (analyzeFrame (fun _ => 0) blackFrame twoCandidates).poseBucket = none ∧
    (analyzeFrame (fun _ => 0) blackFrame twoCandidates).quality = 0 := by
  have hlen := detectFaces_twoCandidates_length
  have hvalid : isValidDetection (detectFaces blackFrame twoCandidates) = false :=
    isValidDetection_eq_false (Or.inl (by rw [hlen]; norm_num))
  have hdim : ¬ (blackFrame.width = 0 ∨ blackFrame.height = 0) := by
    norm_num [blackFrame]
  simp only [analyzeFrame, if_neg hdim, if_pos hvalid, hlen]
  norm_num

/-- C4 amended: zero or two-plus surviving candidates, or a sole survivor
with confidence below 0.9, is a hard rejection: analyzeFrame reports
faceDetected = false (not true), faceCount equal to the surviving candidate
count, the surviving top confidence, faceInFrame mirroring survivor
presence, pose bucket none and yaw, pitch, quality all zero; never a
degraded-mode result. -/
theorem analyzeFrame_hard_rejection
    (sqrtFn : Rat → Rat) (frame : Frame) (candidates : List FaceCandidate)
    (hdim : ¬ (frame.width = 0 ∨ frame.height = 0))
    (hinvalid : (detectFaces frame candidates).faces.length ≠ 1 ∨
      (detectFaces frame candidates).maxConfidence < 0.9) :
    (analyzeFrame sqrtFn frame candidates).faceDetected = false ∧
    (analyzeFrame sqrtFn frame candidates).faceCount
      = (detectFaces frame candidates).faces.length ∧
    (analyzeFrame sqrtFn frame candidates).faceConfidence
      = (detectFaces frame candidates).maxConfidence ∧
    (analyzeFrame sqrtFn frame candidates).faceInFrame
      = decide (0 < (detectFaces frame candidates).faces.length) ∧
    (analyzeFrame sqrtFn frame candidates).poseBucket = none ∧
    (analyzeFrame sqrtFn frame candidates).yaw = 0 ∧
    (analyzeFrame sqrtFn frame candidates).pitch = 0 ∧
    (analyzeFrame sqrtFn frame candidates).quality = 0 := by
  have hvalid := isValidDetection_eq_false hinvalid
  simp [analyzeFrame, if_neg hdim, if_pos hvalid]

/-- Witness for the amended C4 theorem at the concrete two-candidate
input. -/
theorem analyzeFrame_hard_rejection_witness :
    (analyzeFrame (fun _ => 0) blackFrame twoCandidates).faceCount = 2 ∧
    (analyzeFrame (fun _ => 0) blackFrame twoCandidates).faceDetected = false :=
  have h := analyzeFrame_hard_rejection (fun _ => 0) blackFrame twoCandidates
    (by norm_num [blackFrame])
    (Or.inl (by rw [detectFaces_twoCandidates_length]; norm_num))
  ⟨by rw [h.2.1, detectFaces_twoCandidates_length], h.1⟩
